import Mathlib

/-!
Verification of the stem-selection policy engine and mix-orchestration
pipeline of `src/app.py` (Ghostnote).

The Python functions are shallowly embedded as executable Lean
definitions.  Strings are Lean `String`s (lists of characters); Python
`str.lower()` is modelled on the ASCII fragment by `Char.toLower`, and
`str.strip()` by dropping leading and trailing ASCII whitespace.
Python sets become `Finset String`, Python dicts (which preserve
insertion order) become association lists, and the filesystem seen by
the pipeline is a map from path to file size (`0` meaning the file is
absent or empty, which is exactly the distinction `src/app.py` tests:
`not p.exists() or p.stat().st_size == 0`).  The two external
collaborators (the spleeter separation engine and the ffmpeg mixer)
are opaque oracles supplied as parameters.
-/

namespace Ghostnote


/-- ASCII whitespace recognizer: the character class removed by Python
`str.strip()`, restricted to the ASCII fragment (space, tab, newline,
vertical tab, form feed, carriage return). -/
def isSpaceChar (c : Char) : Bool :=
  c.toNat = 32 || c.toNat = 9 || c.toNat = 10 || c.toNat = 11 ||
    c.toNat = 12 || c.toNat = 13

/-- Python `str.strip()` on the character list of a string: drop leading,
then trailing, whitespace. -/
def stripList (l : List Char) : List Char :=
  List.rdropWhile isSpaceChar (List.dropWhile isSpaceChar l)

/-- Python `str.strip()`. -/
def stripStr (s : String) : String := ⟨stripList s.data⟩

/-- Python `str.lower()` (ASCII fragment), via core `Char.toLower`. -/
def lowerStr (s : String) : String := ⟨s.data.map Char.toLower⟩

/-- Model of `normalize_instrument_name` in `src/app.py` (lines 59-63) applied to
an actual string.  For a string argument, Python `(name or "")` is the
identity (the only falsy string is `""`, which is mapped to itself), so
the guard only matters for `None`, modelled by
`normalize_instrument_name_opt` below. -/
def normalize_instrument_name (name : String) : String :=
  let n := lowerStr (stripStr name)
  if n = "voice" ∨ n = "vocal" then "vocals" else n

/-- Normalization of a possibly-missing (`None`) argument:
`(name or "")` replaces `None` by the empty string. -/
def normalize_instrument_name_opt (name : Option String) : String :=
  normalize_instrument_name (name.getD "")

/-- Model of `pick_preset_single` in `src/app.py` (lines 65-74). -/
def pick_preset_single (instrument : String) (karaoke_fast : Bool) : String :=
  let t := normalize_instrument_name instrument
  if t = "piano" then "5stems"
  else if karaoke_fast = true ∧ t = "vocals" then "2stems"
  else "4stems"

/-- Model of `pick_preset_multi` in `src/app.py` (lines 76-89).  The Python set
comprehension `{normalize_instrument_name(x) for x in removals}` is
modelled as the `Finset` of the mapped list. -/
def pick_preset_multi (removals : List String) : String :=
  let rset : Finset String := (removals.map normalize_instrument_name).toFinset
  if rset = {"vocals"} then "4stems"
  else if "piano" ∈ rset then "5stems"
  else "4stems"

/-! ### The mix invoker -/

/-- Outcome of one run of the external `ffmpeg` process, an opaque
collaborator: either exit code 0, or a non-zero exit carrying the
decoded stderr text. -/
inductive MixRun where
  | ok : MixRun
  | err (stderr : String) : MixRun
deriving DecidableEq

/-- Model of `ffmpeg_mix` in `src/app.py` (lines 35-56).  The subprocess call is
the oracle `run`; the returned pair is (result string, whether the
external mixer was invoked).  The function returns `""` on success and
the captured stderr text on `CalledProcessError`, and short-circuits on
an empty input list without spawning the process. -/
def ffmpeg_mix (inputs : List String) (run : MixRun) : String × Bool :=
  if inputs.length = 0 then ("No stems to mix.", false)
  else
    match run with
    | .ok => ("", true)
    | .err e => (e, true)

/-! ### The request orchestrator -/

/-- The filesystem as seen by the pipeline: the size (in bytes) of the
file at each path, with `0` for a file that is absent or empty — which
is exactly the distinction `src/app.py` tests
(`not p.exists() or p.stat().st_size == 0`).  Directories are not
modelled (`mkdir` has no observable effect here). -/
abbrev FS : Type := String → Nat

def fsUpdate (fs : FS) (p : String) (v : Nat) : FS :=
  fun q => if q = p then v else fs q

/-- One incoming `/process` request as seen past the web layer.
`filenameBase` and `filenameExt` are the two components
`os.path.splitext` returns for `secure_filename(f.filename)` (the saved
name is their concatenation); `hasFile` models `f and f.filename` being
truthy.  The remaining fields are raw form fields, `none` when absent. -/
structure Request where
  hasFile : Bool
  filenameBase : String
  filenameExt : String
  multiField : Option String
  removeMulti : List String
  instrumentField : Option String
  actionField : Option String
  karaokeField : Option String

/-- Truthiness test `x in ("1", "true", "on")` that Python applies to an optional form field
(`None` is not one of the three strings). -/
def truthy (f : Option String) : Bool :=
  match f with
  | none => false
  | some s => s = "1" ∨ s = "true" ∨ s = "on"

/-- Action fallback `(request.form.get("action", "remove") or "remove")`: a missing or
empty action field falls back to `"remove"`. -/
def actionRaw (f : Option String) : String :=
  match f with
  | none => "remove"
  | some s => if s = "" then "remove" else s

/-- Model of `expected_stems_for` in `src/app.py` (lines 91-98).  The Python dict
(which preserves insertion order) becomes an association list
stem name ↦ wav filename; the `ValueError` branch becomes `none`. -/
def expected_stems_for (preset : String) : Option (List (String × String)) :=
  if preset = "2stems" then
    some [("vocals", "vocals.wav"), ("accompaniment", "accompaniment.wav")]
  else if preset = "4stems" then
    some [("vocals", "vocals.wav"), ("drums", "drums.wav"),
          ("bass", "bass.wav"), ("other", "other.wav")]
  else if preset = "5stems" then
    some [("vocals", "vocals.wav"), ("drums", "drums.wav"),
          ("bass", "bass.wav"), ("piano", "piano.wav"), ("other", "other.wav")]
  else none

/-- The classified outcome `process` returns to the web layer, one
constructor per `return` in `src/app.py` lines 105-228. -/
inductive ProcResult where
  | noFile
  | unsupportedType (ext : String)
  | invalidAction
  | emptyMultiSelection
  | fastKaraokeUnsupported
  | unknownPreset (preset : String)
  | sepFailed (preset : String)
  | incompleteOutput (preset : String) (missing : List String)
  | twoStemsUnavailable (target : String)
  | targetMissing (target : String) (preset : String)
  | emptySelection
  | mixFailed (err : String)
  | success (mixName : String) (prettyPreset : String) (isMulti : Bool)
      (removals : List String) (instrument : String) (action : String)
deriving DecidableEq

def ProcResult.isSuccess : ProcResult → Bool
  | .success .. => true
  | _ => false

/-- Observable outcome of one request: the result returned to the web
layer, the filesystem afterwards, and instrumentation recording which
effects ran and which intermediate values the pipeline computed. -/
structure Outcome where
  result : ProcResult
  fs : FS
  savedUpload : Bool := false
  engineInvoked : Bool := false
  mixerInvoked : Bool := false
  presetUsed : Option String := none
  stemSet : Option (List (String × String)) := none
  keepPaths : Option (List String) := none
  planLabel : Option String := none

/-- Code-point lexicographic order on strings — how Python compares
strings — expressed on the underlying character lists. -/
def strLe (s t : String) : Prop := s.data ≤ t.data

instance : DecidableRel strLe :=
  fun s t => inferInstanceAs (Decidable (s.data ≤ t.data))

instance : IsTrans String strLe := ⟨fun _ _ _ h1 h2 => le_trans h1 h2⟩

instance : IsAntisymm String strLe :=
  ⟨fun _ _ h1 h2 => String.ext (le_antisymm h1 h2)⟩

instance : IsTotal String strLe := ⟨fun a b => le_total a.data b.data⟩

/-- Python `sorted(set(xs))`: the distinct elements of `xs` in
code-point lexicographic order, computed as an insertion sort of the
deduplicated list. -/
def sortedSet (xs : List String) : List String :=
  List.insertionSort strLe xs.dedup

/-- Lines 179-228 of `src/app.py`: decide which stems to keep, reject an
empty keep set, mix, and assemble the response.  `stems_paths` is the
validated mapping stem name ↦ full path, and `fs` the filesystem after
separation and upload cleanup.  The Python expression `sorted(targets)` on the set
`targets` is `sortedSet` (the sorted list of the distinct elements in
code-point lexicographic order); the written mix artifact is recorded
with marker size `1`.  On mixer failure partial ffmpeg output is not
modelled. -/
def plan_and_mix (base : String) (is_multi : Bool)
    (removals_multi : List String) (instrument action preset : String)
    (stems_paths : List (String × String)) (fs : FS) (engInvoked : Bool)
    (mixr : MixRun) : Outcome :=
  let out_dir := "static/output/" ++ base
  let planned : Except ProcResult (List String × String) :=
    if is_multi then
      let targets := removals_multi.toFinset
      Except.ok ((stems_paths.filter (fun sp => sp.1 ∉ targets)).map Prod.snd,
        "no_" ++ String.intercalate "-" (sortedSet removals_multi))
    else
      let target_stem := instrument
      if preset = "2stems" ∧
          ¬(target_stem = "vocals" ∨ target_stem = "accompaniment") then
        Except.error (.twoStemsUnavailable target_stem)
      else if target_stem ∉ stems_paths.map Prod.fst then
        Except.error (.targetMissing target_stem preset)
      else if action = "remove" then
        Except.ok ((stems_paths.filter (fun sp => sp.1 ≠ target_stem)).map Prod.snd,
          "no_" ++ target_stem)
      else
        Except.ok ([(stems_paths.lookup target_stem).getD ""],
          "solo_" ++ target_stem)
  match planned with
  | .error res =>
    { result := res, fs := fs, savedUpload := true,
      engineInvoked := engInvoked, presetUsed := some preset,
      stemSet := some stems_paths }
  | .ok (keep_paths, label) =>
    if keep_paths = [] then
      { result := .emptySelection, fs := fs, savedUpload := true,
        engineInvoked := engInvoked, presetUsed := some preset,
        stemSet := some stems_paths, keepPaths := some keep_paths,
        planLabel := some label }
    else
      let mix_name := base ++ "_" ++ label ++ ".wav"
      let mix_path := out_dir ++ "/" ++ mix_name
      let mixed := ffmpeg_mix keep_paths mixr
      if mixed.1 ≠ "" then
        { result := .mixFailed mixed.1, fs := fs, savedUpload := true,
          engineInvoked := engInvoked, mixerInvoked := mixed.2,
          presetUsed := some preset, stemSet := some stems_paths,
          keepPaths := some keep_paths, planLabel := some label }
      else
        { result := .success mix_name
            (if preset = "2stems" then "2" else if preset = "4stems" then "4"
              else if preset = "5stems" then "5" else preset)
            is_multi
            (if is_multi then sortedSet removals_multi else [])
            instrument action,
          fs := fsUpdate fs mix_path 1, savedUpload := true,
          engineInvoked := engInvoked, mixerInvoked := mixed.2,
          presetUsed := some preset, stemSet := some stems_paths,
          keepPaths := some keep_paths, planLabel := some label }

/-- Lines 173-177 of `src/app.py`: validate that every expected stem
file exists and is non-empty after (possible) separation, then plan and
mix.  (On failure the code also lists the `*.wav` files present in the
output directory; globbing is not modelled, so only the missing stem
names are recorded.) -/
def after_separation (base : String) (is_multi : Bool)
    (removals_multi : List String) (instrument action preset : String)
    (stems_paths : List (String × String)) (fs : FS) (engInvoked : Bool)
    (mixr : MixRun) : Outcome :=
  let missing := (stems_paths.filter (fun sp => fs sp.2 = 0)).map Prod.fst
  if missing ≠ [] then
    { result := .incompleteOutput preset missing, fs := fs,
      savedUpload := true, engineInvoked := engInvoked,
      presetUsed := some preset }
  else
    plan_and_mix base is_multi removals_multi instrument action preset
      stems_paths fs engInvoked mixr

/-- Lines 145-177 of `src/app.py`: save the upload, compute the expected
stem paths, check the stem cache (line 158), invoke the separation
engine when needed, best-effort-delete the upload, and validate the
stems.  `eng` is the engine oracle: `none` models `separate_to_file`
raising (in which case the `unlink` inside the same `try` is skipped and
the modelled filesystem is left as it was), `some runEngine` models the
engine completing, having transformed the filesystem. -/
def run_pipeline (filenameBase filenameExt : String) (is_multi : Bool)
    (removals_multi : List String) (instrument action preset : String)
    (fs0 : FS) (eng : Option (FS → FS)) (uploadSize : Nat)
    (mixr : MixRun) : Outcome :=
  let in_path := "uploads/" ++ (filenameBase ++ filenameExt)
  let fs1 := fsUpdate fs0 in_path uploadSize
  match expected_stems_for preset with
  | none =>
    { result := .unknownPreset preset, fs := fs1, savedUpload := true,
      presetUsed := some preset }
  | some stems_files =>
    let out_dir := "static/output/" ++ filenameBase
    let stems_paths := stems_files.map (fun nw => (nw.1, out_dir ++ "/" ++ nw.2))
    let need_separate := stems_paths.any (fun np => fs1 np.2 = 0)
    match need_separate, eng with
    | true, none =>
      { result := .sepFailed preset, fs := fs1, savedUpload := true,
        engineInvoked := true, presetUsed := some preset }
    | true, some runEngine =>
      after_separation filenameBase is_multi removals_multi instrument
        action preset stems_paths (fsUpdate (runEngine fs1) in_path 0) true mixr
    | false, _ =>
      after_separation filenameBase is_multi removals_multi instrument
        action preset stems_paths (fsUpdate fs1 in_path 0) false mixr

/-- Model of `process` in `src/app.py` (lines 105-228): request validation,
preset selection and pipeline sequencing for one request.  In
multi-removal mode the action is forced to `"remove"` and the karaoke
flag to `False` (lines 135-136) before either is used. -/
def process (r : Request) (fs0 : FS) (eng : Option (FS → FS))
    (uploadSize : Nat) (mixr : MixRun) : Outcome :=
  if r.hasFile = false then { result := .noFile, fs := fs0 }
  else
    let ext := lowerStr r.filenameExt
    if ¬ (ext = ".mp3" ∨ ext = ".wav" ∨ ext = ".flac" ∨ ext = ".m4a" ∨
        ext = ".ogg") then
      { result := .unsupportedType ext, fs := fs0 }
    else
      let is_multi := truthy r.multiField
      let removals_multi := r.removeMulti.map normalize_instrument_name
      let instrument := normalize_instrument_name (r.instrumentField.getD "drums")
      let action := lowerStr (stripStr (actionRaw r.actionField))
      let karaoke_fast := truthy r.karaokeField
      if ¬ (action = "remove" ∨ action = "solo") then
        { result := .invalidAction, fs := fs0 }
      else if is_multi then
        if removals_multi = [] then
          { result := .emptyMultiSelection, fs := fs0 }
        else
          run_pipeline r.filenameBase r.filenameExt true removals_multi
            instrument "remove" (pick_preset_multi removals_multi)
            fs0 eng uploadSize mixr
      else
        let preset := pick_preset_single instrument karaoke_fast
        if preset = "2stems" ∧
            ¬ (instrument = "vocals" ∨ instrument = "accompaniment") then
          { result := .fastKaraokeUnsupported, fs := fs0 }
        else
          run_pipeline r.filenameBase r.filenameExt false removals_multi
            instrument action preset fs0 eng uploadSize mixr

/-- A multi-removal request naming every stem of the selected 4stems
preset, over a filesystem where all files exist and are non-empty. -/
def rC6 : Request :=
  { hasFile := true, filenameBase := "song", filenameExt := ".mp3",
    multiField := some "1",
    removeMulti := ["vocals", "drums", "bass", "other"],
    instrumentField := none, actionField := none, karaokeField := none }

/-- Multi-removal of {drums, bass}, given in that order. -/
def rC5a : Request :=
  { hasFile := true, filenameBase := "song", filenameExt := ".mp3",
    multiField := some "1", removeMulti := ["drums", "bass"],
    instrumentField := none, actionField := none, karaokeField := none }

/-- The same removal set presented in the other order, with a duplicate. -/
def rC5b : Request := { rC5a with removeMulti := ["bass", "drums", "bass"] }

/-- A single-mode request: solo the vocals, karaoke flag set. -/
def rC3 : Request :=
  { hasFile := true, filenameBase := "song", filenameExt := ".mp3",
    multiField := none, removeMulti := [],
    instrumentField := some "vocals", actionField := some "solo",
    karaokeField := some "1" }

/-- A multi-removal request (remove drums), action field "remove". -/
def rC10 : Request :=
  { hasFile := true, filenameBase := "song", filenameExt := ".mp3",
    multiField := some "1", removeMulti := ["drums"],
    instrumentField := none, actionField := some "remove",
    karaokeField := none }

/-- The preset `process` selects for a request that passes validation
(line 137 in multi mode, line 140 in single mode). -/
def preset_of (r : Request) : String :=
  if truthy r.multiField = true then
    pick_preset_multi (r.removeMulti.map normalize_instrument_name)
  else
    pick_preset_single (normalize_instrument_name (r.instrumentField.getD "drums"))
      (truthy r.karaokeField)

/-- A single-mode remove-drums request (preset 4stems). -/
def rC4 : Request :=
  { hasFile := true, filenameBase := "song", filenameExt := ".mp3",
    multiField := none, removeMulti := [],
    instrumentField := some "drums", actionField := some "remove",
    karaokeField := none }

/-! ### Lemmas and claim theorems -/

/-! ### Character-level lemmas for the normalizer -/

theorem toNat_ofNat_of_lt {n : Nat} (h : n < 55296) : (Char.ofNat n).toNat = n := by
  have hv : n.isValidChar := Or.inl h
  rw [Char.ofNat, dif_pos hv]
  rfl

theorem isSpaceChar_eq_false {c : Char} (h : 33 ≤ c.toNat) :
    isSpaceChar c = false := by
  simp only [isSpaceChar, Bool.or_eq_false_iff, decide_eq_false_iff_not]
  omega

theorem isSpaceChar_toLower (c : Char) :
    isSpaceChar (Char.toLower c) = isSpaceChar c := by
  simp only [Char.toLower]
  split
  · next h =>
    have ht : (Char.ofNat (c.toNat + 32)).toNat = c.toNat + 32 :=
      toNat_ofNat_of_lt (by omega)
    have h1 : isSpaceChar (Char.ofNat (c.toNat + 32)) = false :=
      isSpaceChar_eq_false (by rw [ht]; omega)
    have h2 : isSpaceChar c = false := isSpaceChar_eq_false (by omega)
    rw [h1, h2]
  · rfl

theorem toLower_toLower (c : Char) :
    Char.toLower (Char.toLower c) = Char.toLower c := by
  simp only [Char.toLower]
  split
  · next h =>
    have ht : (Char.ofNat (c.toNat + 32)).toNat = c.toNat + 32 :=
      toNat_ofNat_of_lt (by omega)
    rw [if_neg (by rw [ht]; omega)]
  · rfl

/-! ### Strip / lower algebra -/

theorem dropWhile_eq_self_of_isPrefix {p : Char → Bool} {k m : List Char}
    (hm : List.dropWhile p m = m) (hk : k <+: m) :
    List.dropWhile p k = k := by
  cases k with
  | nil => rfl
  | cons a t =>
    obtain ⟨r, hr⟩ := hk
    by_cases hpa : p a
    · exfalso
      rw [← hr, List.cons_append, List.dropWhile_cons_of_pos hpa] at hm
      have hle : (List.dropWhile p (t ++ r)).length ≤ (t ++ r).length :=
        (List.dropWhile_suffix p).length_le
      rw [hm] at hle
      simp at hle
    · exact List.dropWhile_cons_of_neg hpa

theorem dropWhile_stripList (l : List Char) :
    List.dropWhile isSpaceChar (stripList l) = stripList l := by
  unfold stripList
  have hpre := List.rdropWhile_prefix isSpaceChar (List.dropWhile isSpaceChar l)
  exact dropWhile_eq_self_of_isPrefix (List.dropWhile_idempotent isSpaceChar l) hpre

theorem strip_idem (l : List Char) : stripList (stripList l) = stripList l := by
  conv_lhs => rw [stripList, dropWhile_stripList]
  rw [stripList, List.rdropWhile_idempotent]

theorem strip_map_toLower (l : List Char) :
    stripList (l.map Char.toLower) = (stripList l).map Char.toLower := by
  have hcomp : (isSpaceChar ∘ Char.toLower) = isSpaceChar :=
    funext fun c => isSpaceChar_toLower c
  unfold stripList List.rdropWhile
  rw [List.dropWhile_map, hcomp, ← List.map_reverse, List.dropWhile_map, hcomp,
    ← List.map_reverse]

theorem map_toLower_idem (l : List Char) :
    (l.map Char.toLower).map Char.toLower = l.map Char.toLower := by
  rw [List.map_map]
  exact List.map_congr_left fun c _ => toLower_toLower c

theorem lower_strip_canon (s : String) :
    lowerStr (stripStr (lowerStr (stripStr s))) = lowerStr (stripStr s) := by
  show String.mk (List.map Char.toLower (stripList
      (List.map Char.toLower (stripList s.data)))) = _
  rw [strip_map_toLower, strip_idem, map_toLower_idem]
  rfl

theorem normalize_idem (x : String) :
    normalize_instrument_name (normalize_instrument_name x) =
      normalize_instrument_name x := by
  simp only [normalize_instrument_name]
  by_cases h : lowerStr (stripStr x) = "voice" ∨ lowerStr (stripStr x) = "vocal"
  · rw [if_pos h]
    decide
  · rw [if_neg h, lower_strip_canon, if_neg h]

/-! ### Claim theorems for the pure helpers -/

/-- C7: instrument normalization is total (a total Lean function on every
string, with the `None` case handled by the `(name or "")` guard) and
idempotent, and "Voice", "VOCAL" and " vocal " all normalize to
"vocals". -/
theorem C7_normalize_total_idempotent :
    (∀ x : String,
      normalize_instrument_name (normalize_instrument_name x) =
        normalize_instrument_name x) ∧
    normalize_instrument_name "Voice" = "vocals" ∧
    normalize_instrument_name "VOCAL" = "vocals" ∧
    normalize_instrument_name " vocal " = "vocals" ∧
    normalize_instrument_name_opt none = "" ∧
    (∀ s : String, normalize_instrument_name_opt (some s) =
      normalize_instrument_name s) :=
  ⟨normalize_idem, by decide, by decide, by decide, by decide, fun _ => rfl⟩

/-- C1: the single-mode preset selector returns 5stems whenever the
normalized instrument is "piano" (regardless of the karaoke flag),
2stems when the flag is set and the normalized instrument is "vocals"
(and not "piano"), and 4stems in every other case. -/
theorem C1_pick_preset_single (instrument : String) (karaoke_fast : Bool) :
    (normalize_instrument_name instrument = "piano" →
      pick_preset_single instrument karaoke_fast = "5stems") ∧
    (karaoke_fast = true → normalize_instrument_name instrument = "vocals" →
      normalize_instrument_name instrument ≠ "piano" →
      pick_preset_single instrument karaoke_fast = "2stems") ∧
    (normalize_instrument_name instrument ≠ "piano" →
      ¬(karaoke_fast = true ∧ normalize_instrument_name instrument = "vocals") →
      pick_preset_single instrument karaoke_fast = "4stems") := by
  refine ⟨fun h => ?_, fun hk hv _ => ?_, fun hp hkv => ?_⟩ <;>
    simp only [pick_preset_single]
  · rw [if_pos h]
  · rw [if_neg (by rw [hv]; decide), if_pos ⟨hk, hv⟩]
  · rw [if_neg hp, if_neg hkv]

theorem C1_pick_preset_single_witness :
    pick_preset_single "piano" true = "5stems" ∧
    pick_preset_single "vocals" true = "2stems" ∧
    pick_preset_single "drums" false = "4stems" :=
  ⟨(C1_pick_preset_single "piano" true).1 (by decide),
   (C1_pick_preset_single "vocals" true).2.1 rfl (by decide) (by decide),
   (C1_pick_preset_single "drums" false).2.2 (by decide) (by decide)⟩

/-- C2: the multi-mode preset selector returns 4stems when the
normalized removal set is exactly `{"vocals"}`, 5stems when "piano"
belongs to the normalized removal set, 4stems in every other case, and
never returns 2stems. -/
theorem C2_pick_preset_multi (removals : List String) :
    ((removals.map normalize_instrument_name).toFinset = {"vocals"} →
      pick_preset_multi removals = "4stems") ∧
    ("piano" ∈ (removals.map normalize_instrument_name).toFinset →
      pick_preset_multi removals = "5stems") ∧
    ((removals.map normalize_instrument_name).toFinset ≠ {"vocals"} →
      "piano" ∉ (removals.map normalize_instrument_name).toFinset →
      pick_preset_multi removals = "4stems") ∧
    pick_preset_multi removals ≠ "2stems" := by
  refine ⟨fun h => ?_, fun h => ?_, fun h1 h2 => ?_, ?_⟩ <;>
    simp only [pick_preset_multi]
  · rw [if_pos h]
  · have hne : (removals.map normalize_instrument_name).toFinset ≠ {"vocals"} := by
      intro he
      rw [he] at h
      simp at h
    rw [if_neg hne, if_pos h]
  · rw [if_neg h1, if_neg h2]
  · by_cases h1 : (removals.map normalize_instrument_name).toFinset = {"vocals"}
    · rw [if_pos h1]; decide
    · rw [if_neg h1]
      by_cases h2 : "piano" ∈ (removals.map normalize_instrument_name).toFinset
      · rw [if_pos h2]; decide
      · rw [if_neg h2]; decide

theorem C2_pick_preset_multi_witness :
    pick_preset_multi ["vocals"] = "4stems" ∧
    pick_preset_multi ["piano", "drums"] = "5stems" ∧
    pick_preset_multi ["drums", "bass"] = "4stems" :=
  ⟨(C2_pick_preset_multi ["vocals"]).1 (by decide),
   (C2_pick_preset_multi ["piano", "drums"]).2.1 (by decide),
   (C2_pick_preset_multi ["drums", "bass"]).2.2.1 (by decide) (by decide)⟩

/-- C9 counterexample: a non-zero mixer exit whose captured stderr text
is empty makes `ffmpeg_mix` return the empty string even though the
mixer did not succeed, so "returns the empty string exactly when the
mixer succeeds" is false as stated. -/
theorem C9_counterexample :
    ffmpeg_mix ["static/output/x/vocals.wav"] (MixRun.err "") = ("", true) ∧
    MixRun.err "" ≠ MixRun.ok := by
  exact ⟨rfl, by decide⟩

/-- C9 (amended): the mix invoker fails immediately with the
"No stems to mix." payload on the empty input sequence without spawning
the external mixer; on a non-empty sequence it invokes the mixer
exactly once, returns the empty string whenever the mixer succeeds, and
on non-zero mixer exit returns the captured stderr text verbatim as the
failure payload with no retry (so the result is empty on failure only
in the degenerate case of an empty diagnostic text). -/
theorem C9_ffmpeg_mix (inputs : List String) (run : MixRun) :
    (inputs = [] → ffmpeg_mix inputs run = ("No stems to mix.", false)) ∧
    (inputs ≠ [] →
      (ffmpeg_mix inputs run).2 = true ∧
      (run = .ok → (ffmpeg_mix inputs run).1 = "") ∧
      (∀ e, run = .err e → ffmpeg_mix inputs run = (e, true)) ∧
      (∀ e, run = .err e → e ≠ "" → (ffmpeg_mix inputs run).1 ≠ "")) := by
  constructor
  · intro h
    subst h
    rfl
  · intro h
    cases inputs with
    | nil => exact absurd rfl h
    | cons a t =>
      cases run with
      | ok =>
        refine ⟨rfl, fun _ => rfl, fun e he => ?_, fun e he => ?_⟩ <;> cases he
      | err e =>
        refine ⟨rfl, fun hx => ?_, fun e' he' => ?_, fun e' he' hne => ?_⟩
        · cases hx
        · cases he'
          rfl
        · cases he'
          exact hne

theorem C9_ffmpeg_mix_witness :
    ffmpeg_mix [] MixRun.ok = ("No stems to mix.", false) ∧
    ffmpeg_mix ["static/output/x/vocals.wav"] (MixRun.err "boom") =
      ("boom", true) ∧
    (ffmpeg_mix ["static/output/x/vocals.wav"] MixRun.ok).1 = "" :=
  ⟨(C9_ffmpeg_mix [] MixRun.ok).1 rfl,
   ((C9_ffmpeg_mix ["static/output/x/vocals.wav"] (MixRun.err "boom")).2
      (by decide)).2.2.1 "boom" rfl,
   ((C9_ffmpeg_mix ["static/output/x/vocals.wav"] MixRun.ok).2
      (by decide)).2.1 rfl⟩

/-! ### Claim theorems about the orchestrator -/

/-- C8: an upload whose (lower-cased) extension is not one of
.mp3/.wav/.flac/.m4a/.ogg fails with the unsupported-type validation
error before any work happens: the filesystem is unchanged, the upload
is not saved, and neither the separation engine nor the mixer is
invoked. -/
theorem C8_unsupported_extension (r : Request) (fs0 : FS)
    (eng : Option (FS → FS)) (uploadSize : Nat) (mixr : MixRun)
    (hf : r.hasFile = true)
    (hext : ¬ (lowerStr r.filenameExt = ".mp3" ∨ lowerStr r.filenameExt = ".wav" ∨
      lowerStr r.filenameExt = ".flac" ∨ lowerStr r.filenameExt = ".m4a" ∨
      lowerStr r.filenameExt = ".ogg")) :
    process r fs0 eng uploadSize mixr =
      { result := .unsupportedType (lowerStr r.filenameExt), fs := fs0 } := by
  simp only [process]
  rw [if_neg (by simp [hf]), if_pos hext]

theorem C8_witness :
    process
      { hasFile := true, filenameBase := "song", filenameExt := ".xyz",
        multiField := none, removeMulti := [], instrumentField := none,
        actionField := none, karaokeField := none }
      (fun _ => 0) none 1 MixRun.ok =
      { result := .unsupportedType ".xyz", fs := fun _ => 0 } :=
  C8_unsupported_extension _ (fun _ => 0) none 1 MixRun.ok rfl (by decide)

theorem plan_and_mix_empty_keep (base : String) (is_multi : Bool)
    (removals_multi : List String) (instrument action preset : String)
    (stems_paths : List (String × String)) (fs : FS) (engInvoked : Bool)
    (mixr : MixRun) :
    (plan_and_mix base is_multi removals_multi instrument action preset
      stems_paths fs engInvoked mixr).keepPaths = some [] →
    (plan_and_mix base is_multi removals_multi instrument action preset
      stems_paths fs engInvoked mixr).result = ProcResult.emptySelection ∧
    (plan_and_mix base is_multi removals_multi instrument action preset
      stems_paths fs engInvoked mixr).mixerInvoked = false := by
  simp only [plan_and_mix]
  repeat' split
  all_goals intro h
  all_goals simp_all

theorem after_separation_empty_keep (base : String) (is_multi : Bool)
    (removals_multi : List String) (instrument action preset : String)
    (stems_paths : List (String × String)) (fs : FS) (engInvoked : Bool)
    (mixr : MixRun) :
    (after_separation base is_multi removals_multi instrument action preset
      stems_paths fs engInvoked mixr).keepPaths = some [] →
    (after_separation base is_multi removals_multi instrument action preset
      stems_paths fs engInvoked mixr).result = ProcResult.emptySelection ∧
    (after_separation base is_multi removals_multi instrument action preset
      stems_paths fs engInvoked mixr).mixerInvoked = false := by
  simp only [after_separation]
  split
  · intro h
    simp at h
  · exact plan_and_mix_empty_keep _ _ _ _ _ _ _ _ _ _

theorem run_pipeline_empty_keep (filenameBase filenameExt : String)
    (is_multi : Bool) (removals_multi : List String)
    (instrument action preset : String) (fs0 : FS)
    (eng : Option (FS → FS)) (uploadSize : Nat) (mixr : MixRun) :
    (run_pipeline filenameBase filenameExt is_multi removals_multi instrument
      action preset fs0 eng uploadSize mixr).keepPaths = some [] →
    (run_pipeline filenameBase filenameExt is_multi removals_multi instrument
      action preset fs0 eng uploadSize mixr).result = ProcResult.emptySelection ∧
    (run_pipeline filenameBase filenameExt is_multi removals_multi instrument
      action preset fs0 eng uploadSize mixr).mixerInvoked = false := by
  simp only [run_pipeline]
  repeat' split
  · intro h
    simp at h
  · intro h
    simp at h
  · exact after_separation_empty_keep _ _ _ _ _ _ _ _ _ _
  · exact after_separation_empty_keep _ _ _ _ _ _ _ _ _ _

/-- C6: whenever the pipeline computes an empty keep set, the request
fails with the EmptySelection validation error ("Nothing to mix.") and
the mixer is never invoked. -/
theorem C6_empty_keep_set (r : Request) (fs0 : FS) (eng : Option (FS → FS))
    (uploadSize : Nat) (mixr : MixRun) :
    (process r fs0 eng uploadSize mixr).keepPaths = some [] →
    (process r fs0 eng uploadSize mixr).result = ProcResult.emptySelection ∧
    (process r fs0 eng uploadSize mixr).mixerInvoked = false := by
  simp only [process]
  repeat' split
  all_goals first
    | exact run_pipeline_empty_keep _ _ _ _ _ _ _ _ _ _ _
    | (intro h; simp at h)

theorem C6_witness :
    (process rC6 (fun _ => 1) none 1 MixRun.ok).keepPaths = some [] ∧
    (process rC6 (fun _ => 1) none 1 MixRun.ok).result =
      ProcResult.emptySelection ∧
    (process rC6 (fun _ => 1) none 1 MixRun.ok).mixerInvoked = false :=
  ⟨by decide, C6_empty_keep_set rC6 (fun _ => 1) none 1 MixRun.ok (by decide)⟩

theorem sortedSet_eq_of_toFinset_eq {l1 l2 : List String}
    (h : l1.toFinset = l2.toFinset) : sortedSet l1 = sortedSet l2 := by
  have hperm : List.Perm l1.dedup l2.dedup := by
    have hv := congrArg Finset.val h
    simp only [List.toFinset, Multiset.toFinset_val, Multiset.coe_dedup] at hv
    exact Multiset.coe_eq_coe.mp hv
  exact List.eq_of_perm_of_sorted
    ((List.perm_insertionSort strLe l1.dedup).trans
      (hperm.trans (List.perm_insertionSort strLe l2.dedup).symm))
    (List.sorted_insertionSort strLe l1.dedup)
    (List.sorted_insertionSort strLe l2.dedup)

theorem plan_and_mix_multi_label (base : String)
    (removals_multi : List String) (instrument action preset : String)
    (stems_paths : List (String × String)) (fs : FS) (engInvoked : Bool)
    (mixr : MixRun) :
    ∀ L, (plan_and_mix base true removals_multi instrument action preset
      stems_paths fs engInvoked mixr).planLabel = some L →
      L = "no_" ++ String.intercalate "-" (sortedSet removals_multi) := by
  intro L
  simp only [plan_and_mix]
  repeat' split
  all_goals intro h
  all_goals simp_all

theorem after_separation_multi_label (base : String)
    (removals_multi : List String) (instrument action preset : String)
    (stems_paths : List (String × String)) (fs : FS) (engInvoked : Bool)
    (mixr : MixRun) :
    ∀ L, (after_separation base true removals_multi instrument action preset
      stems_paths fs engInvoked mixr).planLabel = some L →
      L = "no_" ++ String.intercalate "-" (sortedSet removals_multi) := by
  intro L
  simp only [after_separation]
  split
  · intro h
    simp at h
  · exact plan_and_mix_multi_label _ _ _ _ _ _ _ _ _ L

theorem run_pipeline_multi_label (filenameBase filenameExt : String)
    (removals_multi : List String) (instrument action preset : String)
    (fs0 : FS) (eng : Option (FS → FS)) (uploadSize : Nat) (mixr : MixRun) :
    ∀ L, (run_pipeline filenameBase filenameExt true removals_multi instrument
      action preset fs0 eng uploadSize mixr).planLabel = some L →
      L = "no_" ++ String.intercalate "-" (sortedSet removals_multi) := by
  intro L
  simp only [run_pipeline]
  repeat' split
  · intro h
    simp at h
  · intro h
    simp at h
  · exact after_separation_multi_label _ _ _ _ _ _ _ _ _ L
  · exact after_separation_multi_label _ _ _ _ _ _ _ _ _ L

theorem process_multi_label (r : Request) (fs0 : FS) (eng : Option (FS → FS))
    (us : Nat) (mixr : MixRun) (hm : truthy r.multiField = true) :
    ∀ L, (process r fs0 eng us mixr).planLabel = some L →
      L = "no_" ++ String.intercalate "-"
        (sortedSet (r.removeMulti.map normalize_instrument_name)) := by
  intro L
  simp only [process]
  repeat' split
  all_goals first
    | contradiction
    | exact run_pipeline_multi_label _ _ _ _ _ _ _ _ _ _ L
    | (intro h; simp at h)

/-- C5: in multi-removal mode the composition label is always `"no_"`
followed by the normalized removal-set members joined by `"-"` in
lexicographic sort order; consequently two multi requests whose input
lists denote the same normalized removal set (in any order, with
duplicates) produce identical labels. -/
theorem C5_multi_label_deterministic (r r2 : Request) (fs0 fs02 : FS)
    (eng eng2 : Option (FS → FS)) (us us2 : Nat) (mixr mixr2 : MixRun) :
    (truthy r.multiField = true →
      ∀ L, (process r fs0 eng us mixr).planLabel = some L →
        L = "no_" ++ String.intercalate "-"
          (sortedSet (r.removeMulti.map normalize_instrument_name))) ∧
    (truthy r.multiField = true → truthy r2.multiField = true →
      (r.removeMulti.map normalize_instrument_name).toFinset =
        (r2.removeMulti.map normalize_instrument_name).toFinset →
      ∀ L L2, (process r fs0 eng us mixr).planLabel = some L →
        (process r2 fs02 eng2 us2 mixr2).planLabel = some L2 → L = L2) := by
  constructor
  · exact fun hm => process_multi_label r fs0 eng us mixr hm
  · intro hm hm2 hset L L2 hL hL2
    rw [process_multi_label r fs0 eng us mixr hm L hL,
      process_multi_label r2 fs02 eng2 us2 mixr2 hm2 L2 hL2,
      sortedSet_eq_of_toFinset_eq hset]

theorem C5_witness :
    "no_bass-drums" = "no_" ++ String.intercalate "-"
      (sortedSet (rC5a.removeMulti.map normalize_instrument_name)) ∧
    ("no_bass-drums" : String) = "no_bass-drums" :=
  ⟨(C5_multi_label_deterministic rC5a rC5b (fun _ => 1) (fun _ => 1) none none
      1 1 MixRun.ok MixRun.ok).1 rfl "no_bass-drums" (by decide),
   (C5_multi_label_deterministic rC5a rC5b (fun _ => 1) (fun _ => 1) none none
      1 1 MixRun.ok MixRun.ok).2 rfl rfl (by decide) "no_bass-drums"
      "no_bass-drums" (by decide) (by decide)⟩

theorem pick_preset_single_ignores_karaoke {instrument : String}
    (h : normalize_instrument_name instrument ≠ "vocals") (k1 k2 : Bool) :
    pick_preset_single instrument k1 = pick_preset_single instrument k2 := by
  simp only [pick_preset_single]
  by_cases hp : normalize_instrument_name instrument = "piano"
  · rw [if_pos hp, if_pos hp]
  · rw [if_neg hp, if_neg hp, if_neg (fun hc => h hc.2),
      if_neg (fun hc => h hc.2)]

/-- C3 counterexample: for the solo action on vocals the fast-path flag
does change the selected preset (2stems with the flag, 4stems without),
so the disjunct "whose action is solo" of the claim is false. -/
theorem C3_counterexample :
    (process rC3 (fun _ => 1) none 1 MixRun.ok).presetUsed = some "2stems" ∧
    (process { rC3 with karaokeField := none } (fun _ => 1) none 1
      MixRun.ok).presetUsed = some "4stems" := by
  constructor
  · decide
  · decide

/-- C3 (amended): the karaoke fast-path flag is irrelevant whenever the
single-mode target is not vocals: for every single-mode request whose
normalized target instrument is not "vocals", the selected preset and
the whole outcome of the request are the same whether the fast-path
flag is set or not.  (When the target is vocals the flag changes the
preset for the solo action as well — see the counterexample — so the
scope of the flag is "target = vocals", not "action = remove and target =
vocals".) -/
theorem C3_karaoke_scope (r : Request) (k1 k2 : Option String) (fs0 : FS)
    (eng : Option (FS → FS)) (us : Nat) (mixr : MixRun)
    (_hsingle : truthy r.multiField = false)
    (htarget : normalize_instrument_name (r.instrumentField.getD "drums") ≠
      "vocals") :
    process { r with karaokeField := k1 } fs0 eng us mixr =
      process { r with karaokeField := k2 } fs0 eng us mixr := by
  have hn : normalize_instrument_name
      (normalize_instrument_name (r.instrumentField.getD "drums")) ≠ "vocals" := by
    rw [normalize_idem]
    exact htarget
  have hpp := pick_preset_single_ignores_karaoke hn (truthy k1) (truthy k2)
  simp only [process]
  rw [hpp]

theorem C3_karaoke_scope_witness :
    process
        { rC3 with instrumentField := some "drums", karaokeField := some "1" }
        (fun _ => 1) none 1 MixRun.ok =
      process
        { rC3 with instrumentField := some "drums", karaokeField := none }
        (fun _ => 1) none 1 MixRun.ok :=
  C3_karaoke_scope { rC3 with instrumentField := some "drums" }
    (some "1") none (fun _ => 1) none 1 MixRun.ok rfl (by decide)

/-- C10 counterexample: two multi-mode requests identical except for
their action token can produce different responses, because the
"Invalid action" check runs before multi mode forces the action to
"remove": an unrecognized token is rejected while "remove" succeeds. -/
theorem C10_counterexample :
    (process { rC10 with actionField := some "enhance" } (fun _ => 1) none 1
        MixRun.ok).result = ProcResult.invalidAction ∧
    (process rC10 (fun _ => 1) none 1 MixRun.ok).result ≠
      ProcResult.invalidAction := by
  constructor
  · decide
  · decide

/-- C10 (amended): in multi-removal mode the outcome is independent of
the single-mode fields as long as both action tokens are valid: for any
two multi-mode requests identical except for their action token and
karaoke flag, if both (normalized) action tokens are in
{"remove", "solo"} then the selected preset, keep set, label and the
whole response are identical — the action is forced to "remove" and the
karaoke flag is ignored.  (Without the validity proviso the claim fails:
see the counterexample.) -/
theorem C10_multi_ignores_single_fields (r : Request)
    (a1 a2 k1 k2 : Option String) (fs0 : FS) (eng : Option (FS → FS))
    (us : Nat) (mixr : MixRun)
    (hmulti : truthy r.multiField = true)
    (ha1 : lowerStr (stripStr (actionRaw a1)) = "remove" ∨
      lowerStr (stripStr (actionRaw a1)) = "solo")
    (ha2 : lowerStr (stripStr (actionRaw a2)) = "remove" ∨
      lowerStr (stripStr (actionRaw a2)) = "solo") :
    process { r with actionField := a1, karaokeField := k1 } fs0 eng us mixr =
      process { r with actionField := a2, karaokeField := k2 } fs0 eng us mixr := by
  simp only [process]
  rw [if_neg (not_not_intro ha1), if_neg (not_not_intro ha2), hmulti]
  simp only [eq_self_iff_true, if_true]

theorem C10_witness :
    process { rC10 with actionField := some "solo", karaokeField := some "1" }
        (fun _ => 1) none 1 MixRun.ok =
      process rC10 (fun _ => 1) none 1 MixRun.ok :=
  C10_multi_ignores_single_fields rC10 (some "solo") (some "remove")
    (some "1") none (fun _ => 1) none 1 MixRun.ok rfl (by decide) (by decide)

/-! ### Cache idempotence (C4) infrastructure -/

theorem stem_path_ne_in_path (a base w : String) :
    "uploads/" ++ a ≠ (("static/output/" ++ base) ++ "/") ++ w := by
  intro h
  have hd := congrArg (fun s : String => s.data.head?) h
  simp only [String.data_append, List.append_assoc, List.cons_append,
    List.head?_cons, Option.some.injEq] at hd
  exact absurd hd (by decide)

theorem pick_preset_single_eq_two_stems {x : String} {k : Bool}
    (h : pick_preset_single (normalize_instrument_name x) k = "2stems") :
    normalize_instrument_name x = "vocals" := by
  simp only [pick_preset_single, normalize_idem] at h
  by_cases hp : normalize_instrument_name x = "piano"
  · rw [if_pos hp] at h
    exact absurd h (by decide)
  · rw [if_neg hp] at h
    by_cases hv : k = true ∧ normalize_instrument_name x = "vocals"
    · exact hv.2
    · rw [if_neg hv] at h
      exact absurd h (by decide)

theorem plan_and_mix_stemSet (base : String) (is_multi : Bool)
    (removals_multi : List String) (instrument action preset : String)
    (stems_paths : List (String × String)) (fs : FS) (engInvoked : Bool)
    (mixr : MixRun) :
    (plan_and_mix base is_multi removals_multi instrument action preset
      stems_paths fs engInvoked mixr).stemSet = some stems_paths := by
  simp only [plan_and_mix]
  repeat' split
  all_goals rfl

theorem plan_and_mix_engineInvoked (base : String) (is_multi : Bool)
    (removals_multi : List String) (instrument action preset : String)
    (stems_paths : List (String × String)) (fs : FS) (engInvoked : Bool)
    (mixr : MixRun) :
    (plan_and_mix base is_multi removals_multi instrument action preset
      stems_paths fs engInvoked mixr).engineInvoked = engInvoked := by
  simp only [plan_and_mix]
  repeat' split
  all_goals rfl

theorem after_separation_engineInvoked (base : String) (is_multi : Bool)
    (removals_multi : List String) (instrument action preset : String)
    (stems_paths : List (String × String)) (fs : FS) (engInvoked : Bool)
    (mixr : MixRun) :
    (after_separation base is_multi removals_multi instrument action preset
      stems_paths fs engInvoked mixr).engineInvoked = engInvoked := by
  simp only [after_separation]
  split
  · rfl
  · exact plan_and_mix_engineInvoked _ _ _ _ _ _ _ _ _ _

theorem after_separation_stemSet_of_nonzero (base : String) (is_multi : Bool)
    (removals_multi : List String) (instrument action preset : String)
    (stems_paths : List (String × String)) (fs : FS) (engInvoked : Bool)
    (mixr : MixRun) (hfs : ∀ sp ∈ stems_paths, fs sp.2 ≠ 0) :
    (after_separation base is_multi removals_multi instrument action preset
      stems_paths fs engInvoked mixr).stemSet = some stems_paths := by
  simp only [after_separation]
  rw [if_neg (by
    simp only [ne_eq, not_not, List.map_eq_nil_iff, List.filter_eq_nil_iff]
    intro sp hsp
    simpa using hfs sp hsp)]
  exact plan_and_mix_stemSet _ _ _ _ _ _ _ _ _ _

theorem fsUpdate_nonzero {fs : FS} {p q : String} (hp : fs p ≠ 0) {v : Nat}
    (hv : v ≠ 0) : fsUpdate fs q v p ≠ 0 := by
  unfold fsUpdate
  split
  · exact hv
  · exact hp

theorem fsUpdate_ne {fs : FS} {p q : String} (h : ¬ p = q) (v : Nat) :
    fsUpdate fs q v p = fs p := by
  unfold fsUpdate
  rw [if_neg h]

theorem plan_and_mix_fs_nonzero (base : String) (is_multi : Bool)
    (removals_multi : List String) (instrument action preset : String)
    (stems_paths : List (String × String)) (fs : FS) (engInvoked : Bool)
    (mixr : MixRun) (p : String) (hp : fs p ≠ 0) :
    (plan_and_mix base is_multi removals_multi instrument action preset
      stems_paths fs engInvoked mixr).fs p ≠ 0 := by
  simp only [plan_and_mix]
  repeat' split
  all_goals first
    | exact hp
    | exact fsUpdate_nonzero hp (by decide)

theorem after_separation_success_fs (base : String) (is_multi : Bool)
    (removals_multi : List String) (instrument action preset : String)
    (stems_paths : List (String × String)) (fs : FS) (engInvoked : Bool)
    (mixr : MixRun) :
    (after_separation base is_multi removals_multi instrument action preset
      stems_paths fs engInvoked mixr).result.isSuccess = true →
    ∀ p ∈ stems_paths,
      (after_separation base is_multi removals_multi instrument action preset
        stems_paths fs engInvoked mixr).fs p.2 ≠ 0 := by
  simp only [after_separation]
  split
  · intro h
    exact absurd h (by simp [ProcResult.isSuccess])
  · next hmiss =>
    intro _ p hp
    apply plan_and_mix_fs_nonzero
    have h0 := not_not.mp hmiss
    rw [List.map_eq_nil_iff] at h0
    intro hz
    have hmem : p ∈ stems_paths.filter (fun sp => decide (fs sp.2 = 0)) :=
      List.mem_filter.mpr ⟨hp, by simpa using hz⟩
    rw [h0] at hmem
    simp at hmem

theorem run_pipeline_success_fs (filenameBase filenameExt : String)
    (is_multi : Bool) (removals_multi : List String)
    (instrument action preset : String) (fs0 : FS) (eng : Option (FS → FS))
    (uploadSize : Nat) (mixr : MixRun) (l : List (String × String))
    (hl : expected_stems_for preset = some l) :
    (run_pipeline filenameBase filenameExt is_multi removals_multi instrument
      action preset fs0 eng uploadSize mixr).result.isSuccess = true →
    ∀ nw ∈ l,
      (run_pipeline filenameBase filenameExt is_multi removals_multi instrument
        action preset fs0 eng uploadSize mixr).fs
        ((("static/output/" ++ filenameBase) ++ "/") ++ nw.2) ≠ 0 := by
  simp only [run_pipeline, hl]
  repeat' split
  · intro h
    exact absurd h (by simp [ProcResult.isSuccess])
  all_goals intro hs nw hnw
  all_goals
    simpa using after_separation_success_fs _ _ _ _ _ _ _ _ _ _ hs
      (nw.1, (("static/output/" ++ filenameBase) ++ "/") ++ nw.2)
      (List.mem_map_of_mem _ hnw)

theorem run_pipeline_cache_hit (filenameBase filenameExt : String)
    (is_multi : Bool) (removals_multi : List String)
    (instrument action preset : String) (fs0 : FS) (eng : Option (FS → FS))
    (uploadSize : Nat) (mixr : MixRun) (l : List (String × String))
    (hl : expected_stems_for preset = some l)
    (hfs : ∀ nw ∈ l,
      fs0 ((("static/output/" ++ filenameBase) ++ "/") ++ nw.2) ≠ 0) :
    (run_pipeline filenameBase filenameExt is_multi removals_multi instrument
      action preset fs0 eng uploadSize mixr).engineInvoked = false ∧
    (run_pipeline filenameBase filenameExt is_multi removals_multi instrument
      action preset fs0 eng uploadSize mixr).stemSet =
      some (l.map (fun nw =>
        (nw.1, (("static/output/" ++ filenameBase) ++ "/") ++ nw.2))) := by
  have hfs1 : ∀ nw ∈ l,
      fsUpdate fs0 ("uploads/" ++ (filenameBase ++ filenameExt)) uploadSize
        ((("static/output/" ++ filenameBase) ++ "/") ++ nw.2) ≠ 0 := by
    intro nw hnw
    unfold fsUpdate
    rw [if_neg (fun he => stem_path_ne_in_path _ _ _ he.symm)]
    exact hfs nw hnw
  have hns : ((l.map (fun nw =>
      (nw.1, (("static/output/" ++ filenameBase) ++ "/") ++ nw.2))).any
      (fun np => fsUpdate fs0 ("uploads/" ++ (filenameBase ++ filenameExt))
        uploadSize np.2 = 0)) = false := by
    rw [List.any_eq_false]
    intro np hnp
    obtain ⟨nw, hnw, rfl⟩ := List.mem_map.mp hnp
    simpa using hfs1 nw hnw
  simp only [run_pipeline, hl, hns]
  constructor
  · exact after_separation_engineInvoked _ _ _ _ _ _ _ _ _ _
  · apply after_separation_stemSet_of_nonzero
    intro sp hsp
    obtain ⟨nw, hnw, rfl⟩ := List.mem_map.mp hsp
    intro hz
    simp only [fsUpdate] at hz
    rw [if_neg (fun he => stem_path_ne_in_path _ _ _ he.symm)] at hz
    exact hfs1 nw hnw hz

theorem process_reaches_pipeline (r : Request) (fs0 : FS)
    (eng : Option (FS → FS)) (us : Nat) (mixr : MixRun)
    (hf : r.hasFile = true)
    (hext : lowerStr r.filenameExt = ".mp3" ∨ lowerStr r.filenameExt = ".wav" ∨
      lowerStr r.filenameExt = ".flac" ∨ lowerStr r.filenameExt = ".m4a" ∨
      lowerStr r.filenameExt = ".ogg")
    (ha : lowerStr (stripStr (actionRaw r.actionField)) = "remove" ∨
      lowerStr (stripStr (actionRaw r.actionField)) = "solo")
    (hm : truthy r.multiField = true →
      r.removeMulti.map normalize_instrument_name ≠ []) :
    process r fs0 eng us mixr =
      run_pipeline r.filenameBase r.filenameExt (truthy r.multiField)
        (r.removeMulti.map normalize_instrument_name)
        (normalize_instrument_name (r.instrumentField.getD "drums"))
        (if truthy r.multiField = true then "remove"
          else lowerStr (stripStr (actionRaw r.actionField)))
        (preset_of r) fs0 eng us mixr := by
  simp only [process, preset_of]
  rw [if_neg (by simp [hf]), if_neg (not_not_intro hext),
    if_neg (not_not_intro ha)]
  cases hmb : truthy r.multiField with
  | true =>
    simp only [eq_self_iff_true, if_true]
    rw [if_neg (hm hmb)]
  | false =>
    simp only [Bool.false_eq_true, if_false]
    rw [if_neg (fun hc =>
      hc.2 (Or.inl (pick_preset_single_eq_two_stems hc.1)))]

/-- C4: `ensureStems` is idempotent with respect to the separation
engine.  For a request that passes validation: (1) if every expected
stem file of the selected preset already exists and is non-empty, the
pipeline proceeds with the existing stem set and does not invoke the
separation engine; (2) after a completed (successful) run, re-running
the same request performs no separation, whatever the engine oracle,
upload size and mixer oracle of the second run. -/
theorem C4_ensure_stems_idempotent (r : Request) (fs0 : FS)
    (eng : Option (FS → FS)) (us : Nat) (mixr : MixRun)
    (l : List (String × String))
    (hf : r.hasFile = true)
    (hext : lowerStr r.filenameExt = ".mp3" ∨ lowerStr r.filenameExt = ".wav" ∨
      lowerStr r.filenameExt = ".flac" ∨ lowerStr r.filenameExt = ".m4a" ∨
      lowerStr r.filenameExt = ".ogg")
    (ha : lowerStr (stripStr (actionRaw r.actionField)) = "remove" ∨
      lowerStr (stripStr (actionRaw r.actionField)) = "solo")
    (hm : truthy r.multiField = true →
      r.removeMulti.map normalize_instrument_name ≠ [])
    (hl : expected_stems_for (preset_of r) = some l) :
    ((∀ nw ∈ l, fs0 ((("static/output/" ++ r.filenameBase) ++ "/") ++ nw.2) ≠ 0) →
      (process r fs0 eng us mixr).engineInvoked = false ∧
      (process r fs0 eng us mixr).stemSet =
        some (l.map (fun nw =>
          (nw.1, (("static/output/" ++ r.filenameBase) ++ "/") ++ nw.2)))) ∧
    ((process r fs0 eng us mixr).result.isSuccess = true →
      ∀ (eng2 : Option (FS → FS)) (us2 : Nat) (mixr2 : MixRun),
        (process r (process r fs0 eng us mixr).fs eng2 us2 mixr2).engineInvoked =
          false) := by
  rw [process_reaches_pipeline r fs0 eng us mixr hf hext ha hm]
  constructor
  · intro hfs
    exact run_pipeline_cache_hit _ _ _ _ _ _ _ _ _ _ _ l hl hfs
  · intro hs eng2 us2 mixr2
    rw [process_reaches_pipeline r _ eng2 us2 mixr2 hf hext ha hm]
    exact (run_pipeline_cache_hit _ _ _ _ _ _ _ _ _ _ _ l hl
      (run_pipeline_success_fs _ _ _ _ _ _ _ _ _ _ _ l hl hs)).1

theorem C4_witness :
    ((process rC4 (fun _ => 1) none 1 MixRun.ok).engineInvoked = false ∧
      (process rC4 (fun _ => 1) none 1 MixRun.ok).stemSet =
        some ([("vocals", "vocals.wav"), ("drums", "drums.wav"),
          ("bass", "bass.wav"), ("other", "other.wav")].map (fun nw =>
          (nw.1, (("static/output/" ++ rC4.filenameBase) ++ "/") ++ nw.2)))) ∧
    (process rC4 ((process rC4 (fun _ => 1) none 1 MixRun.ok).fs)
      (some (fun f => f)) 0 (MixRun.err "boom")).engineInvoked = false :=
  ⟨(C4_ensure_stems_idempotent rC4 (fun _ => 1) none 1 MixRun.ok
      [("vocals", "vocals.wav"), ("drums", "drums.wav"),
        ("bass", "bass.wav"), ("other", "other.wav")] rfl
      (by decide) (by decide) (by decide) (by decide)).1 (by decide),
   (C4_ensure_stems_idempotent rC4 (fun _ => 1) none 1 MixRun.ok
      [("vocals", "vocals.wav"), ("drums", "drums.wav"),
        ("bass", "bass.wav"), ("other", "other.wav")] rfl
      (by decide) (by decide) (by decide) (by decide)).2 (by decide)
      (some (fun f => f)) 0 (MixRun.err "boom")⟩

end Ghostnote









